import Mathlib

/-!
# Verification of the AgentOS governance workflow orchestrator

Shallow embedding, in Lean 4, of the parts of the AgentOS / AssemblyZero
code base that the checked claims speak about:

* the testing-workflow completeness gate and its router
  (`src/assemblyzero/workflows/testing/nodes/completeness_gate.py`),
* the fallback provider composition and the provider adapters
  (`src/assemblyzero/core/llm_provider.py`),
* the Gemini credential rotator (`src/agentos/core/gemini_client.py`),
* audit file numbering (`src/agentos/workflows/lld/audit.py` and
  `src/assemblyzero/workflows/issue/audit.py`),
* the governance JSONL audit log (`src/agentos/core/audit.py`),
* the requirements-workflow test-plan validation node
  (`src/assemblyzero/workflows/requirements/nodes/validate_test_plan.py`).

Conventions of the embedding:

* Wall-clock instants and durations are integers (minutes for quota reset
  times, milliseconds for call durations).  Elapsed times measured between
  two reads of the clock are nonnegative and appear as `Nat` parameters.
* External collaborators (the subprocess layer, the HTTP transport, the
  JSON codec of the standard library) appear as explicit parameters of the
  embedded functions, so a theorem quantifying over them covers every
  behaviour of the collaborator.
* Python dictionaries persisted as JSON objects are association lists with
  pairwise-distinct keys; a JSON value that `datetime.fromisoformat` fails
  to parse is represented by `none`.
-/

set_option autoImplicit false

namespace AgentOS

/-! ## Testing workflow: completeness gate router
(`src/assemblyzero/workflows/testing/nodes/completeness_gate.py`) -/

/-- The slice of `TestingWorkflowState` that `route_after_completeness_gate`
reads (`state.get` with the defaults used by the source: `""`, `""`, `0`). -/
structure TestingGateState where
  error_message : String
  completeness_verdict : String
  iteration_count : Nat
  deriving Repr, DecidableEq

/-- Embedding of `MAX_COMPLETENESS_ITERATIONS = 3` (completeness_gate.py, line 50). -/
def MAX_COMPLETENESS_ITERATIONS : Nat := 3

/-- Embedding of `route_after_completeness_gate` (completeness_gate.py,
lines 265-303).  The Python function returns one of the literal strings
`"N5_verify_green"`, `"N4_implement_code"`, `"end"`. -/
def route_after_completeness_gate (s : TestingGateState) : String :=
  if s.error_message ≠ "" then "end"
  else if s.completeness_verdict = "BLOCK" then
    if s.iteration_count ≥ MAX_COMPLETENESS_ITERATIONS then "end"
    else "N4_implement_code"
  else "N5_verify_green"

/-! ## Provider layer (`src/assemblyzero/core/llm_provider.py`) -/

/-- Embedding of the `LLMCallResult` dataclass (llm_provider.py, lines
29-67), restricted to the fields the claims mention.  `duration_ms` is a
`Nat`: the source computes it as `int((time.time() - start_time) * 1000)`
from a monotone clock, so it is a nonnegative integer. -/
structure LLMCallResult where
  success : Bool
  response : Option String := none
  error_message : Option String := none
  provider : String
  model_used : String
  duration_ms : Nat
  attempts : Nat
  credential_used : String := ""
  rotation_occurred : Bool := false
  rate_limited : Bool := false
  deriving Repr, DecidableEq

/-- A provider adapter: the uniform `invoke(system_prompt, content,
timeout_seconds)` contract plus `provider_name` and `model`
(llm_provider.py, abstract class `LLMProvider`). -/
structure Provider where
  invoke : String → String → Nat → LLMCallResult
  provider_name : String
  model : String

/-- Embedding of `FallbackProvider.__init__` state (llm_provider.py, lines 623-638). -/
structure FallbackProvider where
  primary : Provider
  fallback : Provider
  primary_timeout : Nat := 180

/-- Embedding of `FallbackProvider.provider_name` delegates to the primary
(llm_provider.py, lines 640-642). -/
def FallbackProvider.provider_name (fp : FallbackProvider) : String :=
  fp.primary.provider_name

/-- Embedding of `FallbackProvider.model` delegates to the primary (llm_provider.py,
lines 644-646). -/
def FallbackProvider.model (fp : FallbackProvider) : String :=
  fp.primary.model

/-- One observed sub-invocation of `FallbackProvider.invoke`, with the
timeout it was given. -/
inductive ProviderCall where
  | primaryCall (timeout : Nat)
  | fallbackCall (timeout : Nat)
  deriving Repr, DecidableEq

/-- Embedding of `FallbackProvider.invoke` (llm_provider.py, lines
648-676), instrumented with the exact sequence of sub-invocations made.
The control flow is a line-by-line translation: invoke the primary with
`min(timeout_seconds, primary_timeout)`; return its result on success;
otherwise invoke the fallback with the full caller timeout. -/
def FallbackProvider.invokeTraced (fp : FallbackProvider)
    (system_prompt content : String) (timeout_seconds : Nat) :
    LLMCallResult × List ProviderCall :=
  let effective_timeout := min timeout_seconds fp.primary_timeout
  let result := fp.primary.invoke system_prompt content effective_timeout
  if result.success then (result, [.primaryCall effective_timeout])
  else
    (fp.fallback.invoke system_prompt content timeout_seconds,
     [.primaryCall effective_timeout, .fallbackCall timeout_seconds])

/-- Embedding of `FallbackProvider.invoke`: the returned result of `invokeTraced`. -/
def FallbackProvider.invoke (fp : FallbackProvider)
    (system_prompt content : String) (timeout_seconds : Nat) : LLMCallResult :=
  (fp.invokeTraced system_prompt content timeout_seconds).1

/-- A provider that always succeeds (used to instantiate theorems about
provider composition at a concrete input). -/
def alwaysOkProvider : Provider where
  invoke := fun _ _ _ =>
    { success := true, response := some "ok", provider := "p1",
      model_used := "m1", duration_ms := 5, attempts := 1 }
  provider_name := "p1"
  model := "m1"

/-- A provider that always fails (used to instantiate theorems about
provider composition at a concrete input). -/
def alwaysFailProvider : Provider where
  invoke := fun _ _ _ =>
    { success := false, error_message := some "boom", provider := "p2",
      model_used := "m2", duration_ms := 7, attempts := 1 }
  provider_name := "p2"
  model := "m2"

/-! ## Gemini credential rotator (`src/agentos/core/gemini_client.py`)

Time is measured in integer minutes for quota reset instants (exact for
the `Nh Mm` durations the source extracts: `N + M/60` hours is `60*N + M`
minutes) and in integer milliseconds for call durations.  The `datetime`
layer is abstracted as follows: a persisted reset-time string that
`datetime.fromisoformat` parses is `some t`, one that raises
`ValueError`/`TypeError` is `none`.  Every mutation of the rotation state
in the source is immediately followed by `_save_state`, so the state
threaded through the embedding is also the state persisted on disk at each
mutation point. -/

/-- Embedding of `GeminiErrorType` (gemini_client.py, lines 39-47). -/
inductive GeminiErrorType where
  | quota | capacity | auth | parse | model | unknown
  deriving Repr, DecidableEq

/-- Embedding of `QUOTA_EXHAUSTED_PATTERNS` (gemini_client.py, lines 51-57). -/
def QUOTA_EXHAUSTED_PATTERNS : List String :=
  ["TerminalQuotaError", "exhausted your capacity", "QUOTA_EXHAUSTED",
   "429", "Resource has been exhausted"]

/-- Embedding of `CAPACITY_PATTERNS` (gemini_client.py, lines 59-65). -/
def CAPACITY_PATTERNS : List String :=
  ["MODEL_CAPACITY_EXHAUSTED", "RESOURCE_EXHAUSTED", "503", "529",
   "The model is overloaded"]

/-- Embedding of `AUTH_ERROR_PATTERNS` (gemini_client.py, lines 67-74). -/
def AUTH_ERROR_PATTERNS : List String :=
  ["API_KEY_INVALID", "API key not valid", "PERMISSION_DENIED",
   "UNAUTHENTICATED", "401", "403"]

/-- ASCII lower-casing of a character (Python `str.lower`, restricted to
ASCII; every pattern the classifier compares against is ASCII). -/
def asciiLower (c : Char) : Char :=
  if 'A' ≤ c ∧ c ≤ 'Z' then Char.ofNat (c.toNat + 32) else c

/-- Python `str.lower` on a string, character-wise. -/
def lowerStr (s : String) : String :=
  String.mk (s.data.map asciiLower)

/-- Python `str.strip`: drop leading and trailing whitespace. -/
def stripStr (s : String) : String :=
  String.mk (((s.data.dropWhile Char.isWhitespace).reverse.dropWhile
    Char.isWhitespace).reverse)

/-- Python slicing `s[:n]` by code points. -/
def takeStr (s : String) (n : Nat) : String :=
  String.mk (s.data.take n)

/-- Python's `pat in s` substring test on character lists. -/
def strContainsSub (s pat : String) : Bool :=
  (List.range (s.toList.length + 1)).any
    fun i => pat.toList.isPrefixOf (s.toList.drop i)

/-- Embedding of `GeminiClient._classify_error` (gemini_client.py, lines 396-415):
ordered pattern match, case-insensitive, quota before capacity before
auth, else UNKNOWN. -/
def classify_error (error_output : String) : GeminiErrorType :=
  let e := lowerStr error_output
  if QUOTA_EXHAUSTED_PATTERNS.any (fun p => strContainsSub e (lowerStr p)) then
    .quota
  else if CAPACITY_PATTERNS.any (fun p => strContainsSub e (lowerStr p)) then
    .capacity
  else if AUTH_ERROR_PATTERNS.any (fun p => strContainsSub e (lowerStr p)) then
    .auth
  else .unknown

/-- Value of a maximal ASCII digit run, most significant first. -/
def digitsToNat (ds : List Char) : Nat :=
  ds.foldl (fun n c => n * 10 + (c.toNat - '0'.toNat)) 0

/-- Match the regular expression `reset after (\d+)h(\d+)m` anchored at the
start of `cs`; `\d` is restricted to ASCII digits.  Returns the two
captured groups. -/
def matchResetAt (cs : List Char) : Option (Nat × Nat) :=
  if "reset after ".toList.isPrefixOf cs then
    let rest := cs.drop "reset after ".toList.length
    match rest.span Char.isDigit with
    | ([], _) => none
    | (d1, r1) =>
      match r1 with
      | 'h' :: r2 =>
        match r2.span Char.isDigit with
        | ([], _) => none
        | (d2, r3) =>
          match r3 with
          | 'm' :: _ => some (digitsToNat d1, digitsToNat d2)
          | _ => none
      | _ => none
  else none

/-- Embedding of `re.search`: try every start position left to right. -/
def searchReset : List Char → Option (Nat × Nat)
  | [] => none
  | c :: cs =>
    match matchResetAt (c :: cs) with
    | some r => some r
    | none => searchReset cs

/-- Embedding of `GeminiClient._parse_reset_time` (gemini_client.py, lines 421-431),
returning the extracted duration in minutes: the source returns
`hours + minutes / 60` hours, i.e. `60 * hours + minutes` minutes. -/
def parse_reset_time (error_output : String) : Option Nat :=
  (searchReset error_output.toList).map fun p => 60 * p.1 + p.2

/-- The reset window actually used by `GeminiClient.invoke` (line 277):
`reset_hours = self._parse_reset_time(error_str) or 24`.  Python's `or`
replaces a parse result of `0.0` (falsy) as well as `None` by the 24-hour
default; 24 hours is 1440 minutes. -/
def effective_reset_minutes (error_output : String) : Nat :=
  match parse_reset_time error_output with
  | some m => if m = 0 then 1440 else m
  | none => 1440

/-- Embedding of `Credential` (gemini_client.py, lines 83-90). -/
structure Credential where
  name : String
  key : String
  enabled : Bool := true
  account_name : String := ""
  deriving Repr, DecidableEq

/-- Embedding of `RotationState` (gemini_client.py, lines 93-99).  `exhausted` maps a
credential name to its persisted reset time: `some t` when the stored
string parses, `none` when it does not. -/
structure RotationState where
  exhausted : List (String × Option Nat) := []
  last_success : Option String := none
  last_success_time : Option Nat := none
  deriving Repr, DecidableEq

/-- First-match association lookup (Python `name in dict` / `dict[name]`;
JSON object keys are unique). -/
def lookupEntry : List (String × Option Nat) → String → Option (Option Nat)
  | [], _ => none
  | (k', v') :: rest, k => if k' = k then some v' else lookupEntry rest k

/-- Python `del dict[name]` on a unique-key association list. -/
def eraseEntry : List (String × Option Nat) → String → List (String × Option Nat)
  | [], _ => []
  | (k', v') :: rest, k =>
    if k' = k then eraseEntry rest k else (k', v') :: eraseEntry rest k

/-- Python `dict[name] = value`: update in place, or append preserving
insertion order. -/
def setEntry : List (String × Option Nat) → String → Option Nat →
    List (String × Option Nat)
  | [], k, v => [(k, v)]
  | (k', v') :: rest, k, v =>
    if k' = k then (k, v) :: rest else (k', v') :: setEntry rest k v

/-- Embedding of `GeminiClient._is_exhausted` (gemini_client.py, lines 369-384):
absent entry → not exhausted; unparseable reset time
(`ValueError`/`TypeError`) → not exhausted, entry kept; parsed reset time
in the past (`now >= reset_time`) → entry deleted (and persisted), not
exhausted; otherwise exhausted.  Returns the flag and the updated state. -/
def is_exhausted (now : Nat) (cred : Credential) (st : RotationState) :
    Bool × RotationState :=
  match lookupEntry st.exhausted cred.name with
  | none => (false, st)
  | some none => (false, st)
  | some (some t) =>
    if t ≤ now then (false, { st with exhausted := eraseEntry st.exhausted cred.name })
    else (true, st)

/-- Embedding of `GeminiClient._mark_exhausted` (gemini_client.py, lines 386-394):
record expiry `now + reset window` and persist.  (The source zeroes the
microsecond field of `now` first; at minute granularity this is the
identity.) -/
def mark_exhausted (now : Nat) (cred : Credential) (reset_minutes : Nat)
    (st : RotationState) : RotationState :=
  { st with exhausted := setEntry st.exhausted cred.name (some (now + reset_minutes)) }

/-- The filter `[c for c in credentials if c.enabled and not
self._is_exhausted(c, state)]` (gemini_client.py, lines 196-198).  `and`
short-circuits, so `_is_exhausted` (which may delete expired entries and
persist) runs only for enabled credentials. -/
def filter_available (now : Nat) :
    List Credential → RotationState → List Credential × RotationState
  | [], st => ([], st)
  | c :: rest, st =>
    if c.enabled then
      let p := is_exhausted now c st
      let q := filter_available now rest p.2
      (if p.1 then q.1 else c :: q.1, q.2)
    else filter_available now rest st

/-- Embedding of `GeminiCallResult` (gemini_client.py, lines 102-115). -/
structure GeminiCallResult where
  success : Bool
  response : Option String
  raw_response : Option String
  error_type : Option GeminiErrorType
  error_message : Option String
  credential_used : String
  rotation_occurred : Bool
  attempts : Nat
  duration_ms : Nat
  model_verified : String
  deriving Repr, DecidableEq

/-- One call of the underlying transport (`genai` configure + model +
`generate_content`): either a returned response with its `response.text`,
or a raised exception with its `str(e)`. -/
inductive TransportOutcome where
  | ok (text : String)
  | err (msg : String)
  deriving Repr, DecidableEq

/-- Outcome of the per-credential retry loop: a success return, or
falling through to the next credential with the errors appended so far,
the running attempt count and the updated state. -/
inductive CredStep where
  | success (res : GeminiCallResult) (st : RotationState)
  | nextCred (errs : List String) (total : Nat) (st : RotationState)
  deriving Repr

/-- The `while attempt < MAX_RETRIES_PER_CREDENTIAL` loop of
`GeminiClient.invoke` for a single credential (gemini_client.py, lines
222-287).  `tp` is the transport oracle indexed by the global attempt
counter; `fuel` is the number of retries left; `total` is
`total_attempts` so far; `elapsedMs` abstracts
`int((time.time() - start_time) * 1000)` at the return point.  On a
response with non-empty `response.text`: record last-success, persist,
return.  An empty `response.text` falls through the `if` and retries.
On an exception: CAPACITY backs off (sleep abstracted) and retries the
same credential; QUOTA marks exhausted (persisted) and moves on; AUTH and
any other classification move on with an error recorded. -/
def try_credential (tp : Nat → TransportOutcome) (now elapsedMs : Nat)
    (modelName : String) (cred : Credential) (rotation : Bool) :
    Nat → Nat → RotationState → CredStep
  | 0, total, st => .nextCred [] total st
  | fuel + 1, total, st =>
    match tp total with
    | .ok text =>
      if text ≠ "" then
        .success
          { success := true, response := some text, raw_response := some text,
            error_type := none, error_message := none,
            credential_used := cred.name, rotation_occurred := rotation,
            attempts := total + 1, duration_ms := elapsedMs,
            model_verified := modelName }
          { st with last_success := some cred.name, last_success_time := some now }
      else
        try_credential tp now elapsedMs modelName cred rotation fuel (total + 1) st
    | .err msg =>
      match classify_error msg with
      | .capacity =>
        try_credential tp now elapsedMs modelName cred rotation fuel (total + 1) st
      | .quota =>
        .nextCred [cred.name ++ ": Quota exhausted"] (total + 1)
          (mark_exhausted now cred (effective_reset_minutes msg) st)
      | .auth =>
        .nextCred [cred.name ++ ": Authentication failed"] (total + 1) st
      | _ =>
        .nextCred [cred.name ++ ": " ++ takeStr msg 100] (total + 1) st

/-- The `for cred in available` loop of `GeminiClient.invoke`
(gemini_client.py, lines 219-287).  `initialName` is the name of the head
of the filtered list; the per-credential rotation flag is
`cred.name != initial_credential.name` (line 220). -/
def run_credentials (tp : Nat → TransportOutcome) (now elapsedMs maxRetries : Nat)
    (modelName initialName : String) :
    List Credential → List String → Nat → RotationState →
    (GeminiCallResult × RotationState) ⊕ (List String × Nat × RotationState)
  | [], errs, total, st => .inr (errs, total, st)
  | c :: rest, errs, total, st =>
    match try_credential tp now elapsedMs modelName c (c.name != initialName)
        maxRetries total st with
    | .success res st' => .inl (res, st')
    | .nextCred e total' st' =>
      run_credentials tp now elapsedMs maxRetries modelName initialName rest
        (errs ++ e) total' st'

/-- Embedding of `GeminiClient.invoke` (gemini_client.py, lines 161-306), returning the
call result together with the final rotation state (equal to the state
persisted on disk whenever a save occurred; on the success path the save
at lines 244-247 always occurs). -/
def gemini_invoke (tp : Nat → TransportOutcome) (now elapsedMs maxRetries : Nat)
    (modelName : String) (credentials : List Credential) (st0 : RotationState) :
    GeminiCallResult × RotationState :=
  let fa := filter_available now credentials st0
  match fa.1 with
  | [] =>
    let exhausted_names :=
      (credentials.filter fun c => (lookupEntry fa.2.exhausted c.name).isSome).map
        Credential.name
    ({ success := false, response := none, raw_response := none,
       error_type := some .quota,
       error_message := some ("All credentials exhausted: " ++
         String.intercalate ", " exhausted_names ++ ". Wait for quota reset."),
       credential_used := "", rotation_occurred := false, attempts := 0,
       duration_ms := 0, model_verified := "" }, fa.2)
  | c0 :: _ =>
    match run_credentials tp now elapsedMs maxRetries modelName c0.name fa.1 [] 0 fa.2 with
    | .inl rs => rs
    | .inr (errs, total, st') =>
      ({ success := false, response := none, raw_response := none,
         error_type := some .unknown,
         error_message := some ("All credentials failed:\n  - " ++
           String.intercalate "\n  - " errs),
         credential_used := "", rotation_occurred := decide (1 < fa.1.length),
         attempts := total, duration_ms := elapsedMs, model_verified := "" }, st')

/-! ## Concrete provider adapters (`src/assemblyzero/core/llm_provider.py`)

The subprocess layer, the `.env` loader and the HTTP client are external
collaborators; they appear as explicit parameters so that every behaviour
of the collaborator is covered. -/

/-- Outcome of `subprocess.run` in `ClaudeCLIProvider.invoke`. -/
inductive SubprocessResult where
  | completed (returncode : Int) (stdout stderr : String)
  | timedOut
  | raised (msg : String)
  deriving Repr, DecidableEq

/-- Embedding of `ClaudeCLIProvider.invoke` (llm_provider.py, lines 262-403).
`find_cli` is the outcome of `_find_cli` (`.error` is the `RuntimeError`
message when the executable is not found); `jsonResult` is
`json.loads(result.stdout).get("result", "")` when stdout parses as JSON
and `none` on `JSONDecodeError`; `elapsedMs` abstracts the elapsed-time
computation at the return point.  Branches: executable not found →
failure with `attempts = 0` and `duration_ms = 0`; non-zero exit →
failure with `attempts = 1`; zero exit → success with `attempts = 1`;
subprocess timeout or any other exception → failure with
`attempts = 1`. -/
def claude_cli_invoke (find_cli : Except String String)
    (run : SubprocessResult) (jsonResult : Option String)
    (elapsedMs : Nat) (model : String) (timeout_seconds : Nat) : LLMCallResult :=
  match find_cli with
  | .error e =>
    { success := false, error_message := some e, provider := "claude",
      model_used := model, duration_ms := 0, attempts := 0 }
  | .ok _ =>
    match run with
    | .completed rc stdout stderr =>
      if rc ≠ 0 then
        let error_msg :=
          if stderr ≠ "" then stderr
          else if stdout ≠ "" then stdout
          else "Unknown error"
        { success := false, error_message := some ("claude -p failed: " ++ error_msg),
          provider := "claude", model_used := model, duration_ms := elapsedMs,
          attempts := 1 }
      else
        let response_text :=
          match jsonResult with
          | some r => r
          | none => stripStr stdout
        { success := true, response := some response_text, provider := "claude",
          model_used := model, duration_ms := elapsedMs, attempts := 1 }
    | .timedOut =>
      { success := false,
        error_message := some ("claude -p timed out after " ++
          toString timeout_seconds ++ "s"),
        provider := "claude", model_used := model, duration_ms := elapsedMs,
        attempts := 1 }
    | .raised msg =>
      { success := false, error_message := some msg, provider := "claude",
        model_used := model, duration_ms := elapsedMs, attempts := 1 }

/-- Outcome of the Anthropic `messages.create` call. -/
inductive AnthropicOutcome where
  | ok (text : String)
  | timedOut
  | authFailed
  | rateLimited (msg : String)
  | other (msg : String)
  deriving Repr, DecidableEq

/-- Embedding of `AnthropicProvider.invoke` (llm_provider.py, lines 500-613).
`api_key` is the result of `_load_anthropic_api_key`; when it is absent
`_get_client` raises `RuntimeError`, handled at lines 571-585 with
`attempts = 0`.  All other branches return `attempts = 1`. -/
def anthropic_invoke (api_key : Option String) (call : AnthropicOutcome)
    (elapsedMs : Nat) (model : String) (timeout_seconds : Nat) : LLMCallResult :=
  match api_key with
  | none =>
    { success := false,
      error_message := some ("ANTHROPIC_API_KEY not found in .env file. " ++
        "Add it to the .env file at the repo root."),
      provider := "anthropic", model_used := model, duration_ms := elapsedMs,
      attempts := 0 }
  | some _ =>
    match call with
    | .ok text =>
      { success := true, response := some text, provider := "anthropic",
        model_used := model, duration_ms := elapsedMs, attempts := 1 }
    | .timedOut =>
      { success := false,
        error_message := some ("Anthropic API timed out after " ++
          toString timeout_seconds ++ "s"),
        provider := "anthropic", model_used := model, duration_ms := elapsedMs,
        attempts := 1 }
    | .authFailed =>
      { success := false,
        error_message := some "Anthropic API authentication failed. Check your API key.",
        provider := "anthropic", model_used := model, duration_ms := elapsedMs,
        attempts := 1 }
    | .rateLimited msg =>
      { success := false,
        error_message := some ("Anthropic API rate limited: " ++ msg),
        provider := "anthropic", model_used := model, duration_ms := elapsedMs,
        attempts := 1, rate_limited := true }
    | .other msg =>
      { success := false,
        error_message := some ("Anthropic API error: " ++ msg),
        provider := "anthropic", model_used := model, duration_ms := elapsedMs,
        attempts := 1 }

/-- Embedding of `MockProvider.invoke` (llm_provider.py, lines 856-913).  `call_count`
is the counter value before the call.  The Python guard
`if self._fail_on_call and self._call_count == self._fail_on_call` treats
`fail_on_call = 0` as falsy.  (With an empty response list the source
would raise on the modulo; the embedding totalises with `getD ""`.) -/
def mock_invoke (responses : List String) (fail_on_call : Option Nat)
    (call_count : Nat) (model : String) : LLMCallResult :=
  let cc := call_count + 1
  let failNow :=
    match fail_on_call with
    | some n => n != 0 && cc == n
    | none => false
  if failNow then
    { success := false,
      error_message := some ("Mock failure on call " ++ toString cc),
      provider := "mock", model_used := model, duration_ms := 0, attempts := 1 }
  else
    { success := true,
      response := some (responses.getD ((cc - 1) % responses.length) ""),
      provider := "mock", model_used := model, duration_ms := 100, attempts := 1 }

/-- Embedding of `GeminiProvider.invoke` (llm_provider.py, lines 739-802): wraps a
`GeminiClient.invoke` outcome (`.error` when client construction or the
call raised) into an `LLMCallResult`; the exception branch returns
`attempts = 0`. -/
def gemini_provider_invoke (clientOutcome : Except String GeminiCallResult)
    (model : String) : LLMCallResult :=
  match clientOutcome with
  | .ok r =>
    { success := r.success, response := r.response,
      error_message := r.error_message, provider := "gemini",
      model_used := if r.model_verified ≠ "" then r.model_verified else model,
      duration_ms := r.duration_ms, attempts := r.attempts,
      credential_used := r.credential_used,
      rotation_occurred := r.rotation_occurred,
      rate_limited := r.error_type == some .quota }
  | .error e =>
    { success := false, error_message := some e, provider := "gemini",
      model_used := model, duration_ms := 0, attempts := 0,
      rate_limited := strContainsSub (lowerStr e) "quota" || strContainsSub e "429" }

/-! ## Audit artifact numbering
(`src/agentos/workflows/lld/audit.py` and
`src/assemblyzero/workflows/issue/audit.py`)

An audit directory is `none` when it does not exist and otherwise the
list of names of its regular files. -/

/-- The LLD-workflow match `re.match(r"^(\d{3})-", f.name)`
(lld/audit.py, line 89): exactly three ASCII digits at the start of the
name followed by a dash. -/
def lldSeqNum (name : String) : Option Nat :=
  match name.toList with
  | a :: b :: c :: '-' :: _ =>
    if a.isDigit && b.isDigit && c.isDigit then some (digitsToNat [a, b, c])
    else none
  | _ => none

/-- The issue-workflow search `re.search(r"-(\d{3})-", f.name)`
(issue/audit.py, line 236): the leftmost occurrence of a dash, three ASCII
digits, dash anywhere in the name. -/
def issueSeqNumFrom : List Char → Option Nat
  | [] => none
  | '-' :: rest =>
    match rest with
    | a :: b :: c :: '-' :: _ =>
      if a.isDigit && b.isDigit && c.isDigit then some (digitsToNat [a, b, c])
      else issueSeqNumFrom rest
    | _ => issueSeqNumFrom rest
  | _ :: rest => issueSeqNumFrom rest

/-- Embedding of `issueSeqNumFrom` on a file name. -/
def issueSeqNum (name : String) : Option Nat :=
  issueSeqNumFrom name.toList

/-- The `max_num` accumulation loop shared by both `next_file_number`
implementations, parameterised by the per-file matcher. -/
def seqFold (g : String → Option Nat) (files : List String) : Nat :=
  files.foldl
    (fun mx f =>
      match g f with
      | some n => max mx n
      | none => mx) 0

/-- Embedding of `next_file_number` of `src/agentos/workflows/lld/audit.py`
(lines 75-97). -/
def next_file_number_lld (dir : Option (List String)) : Nat :=
  match dir with
  | none => 1
  | some files => seqFold lldSeqNum files + 1

/-- Embedding of `next_file_number` of `src/assemblyzero/workflows/issue/audit.py`
(lines 221-243). -/
def next_file_number_issue (dir : Option (List String)) : Nat :=
  match dir with
  | none => 1
  | some files => seqFold issueSeqNum files + 1

/-! ## Governance audit log (`src/agentos/core/audit.py`)

The JSONL file is its list of complete lines: `log` writes
`json.dumps(entry) + "\n"`, so every line written through the log ends in
a newline.  `json.dumps`/`json.loads` are the standard library; they enter
as an encode/decode pair about which the theorems assume exactly the
properties the library provides (a dump is a non-blank single line that
loads back to the entry). -/

/-- Embedding of `GovernanceAuditLog.log` (audit.py, lines 61-76): append one encoded
line. -/
def audit_log_append {α : Type} (encode : α → String) (file : List String)
    (entry : α) : List String :=
  file ++ [encode entry]

/-- A sequence of `log` calls, in order. -/
def audit_log_append_all {α : Type} (encode : α → String) (file : List String)
    (entries : List α) : List String :=
  entries.foldl (audit_log_append encode) file

/-- Embedding of `GovernanceAuditLog.__iter__` (audit.py, lines 108-125): per line,
strip, skip blank lines, parse, skip lines that raise `JSONDecodeError`. -/
def audit_log_entries {α : Type} (decode : String → Option α)
    (file : List String) : List α :=
  file.filterMap fun line =>
    if stripStr line = "" then none else decode (stripStr line)

/-- An injective single-line codec instance used to instantiate the audit
log theorems at a concrete input. -/
def boolEncode (b : Bool) : String :=
  cond b "T" "F"

/-- Decoder matching `boolEncode`; anything else is a malformed line. -/
def boolDecode (s : String) : Option Bool :=
  if s = "T" then some true else if s = "F" then some false else none

/-! ## Requirements workflow: test-plan validation node
(`src/assemblyzero/workflows/requirements/nodes/validate_test_plan.py`)

The node imports `MAX_VALIDATION_ATTEMPTS` and `validate_test_plan` from
`assemblyzero.core.validation.test_plan_validator`, a module that is not
among the sources; the validator therefore enters as a function
parameter. -/

/-- Modelled from the spec: `MAX_VALIDATION_ATTEMPTS` lives in the missing
module `assemblyzero/core/validation/test_plan_validator.py`; the spec
bounds validation attempts by it and the repository test T130 ("Node
escalates after 3 failures") fixes the value 3. -/
def MAX_VALIDATION_ATTEMPTS : Nat := 3

/-- Modelled from the spec: `ValidationViolation` (severity, check kind,
message) from §3.1; the type is declared in the missing validator
module. -/
structure ValidationViolation where
  severity : String
  check_type : String
  message : String
  deriving Repr, DecidableEq

/-- Modelled from the spec: `ValidationResult` (passed/failed, violations,
coverage percentage, counts, execution time) from §3.1; the type is
declared in the missing validator module.  The coverage percentage is kept
integral. -/
structure ValidationResult where
  passed : Bool
  coverage_percentage : Nat
  mapped_count : Nat
  requirements_count : Nat
  tests_count : Nat
  violations : List ValidationViolation
  deriving Repr, DecidableEq

/-- The slice of `RequirementsWorkflowState` the node reads, with the
`state.get` defaults of the source (`0`, `""`, `0`). -/
structure RequirementsState where
  test_plan_validation_attempts : Nat
  current_draft : String
  iteration_count : Nat
  deriving Repr, DecidableEq

/-- The partial state update returned by the node; a `none` field is a key
absent from the returned dictionary. -/
structure RequirementsUpdate where
  error_message : Option String := none
  test_plan_validation_result : Option ValidationResult := none
  test_plan_validation_attempts : Option Nat := none
  user_feedback : Option String := none
  iteration_count : Option Nat := none
  lld_status : Option String := none
  deriving Repr, DecidableEq

/-- Embedding of `_build_validation_feedback` (validate_test_plan.py, lines 92-127). -/
def build_validation_feedback (result : ValidationResult) : String :=
  let header :=
    ["## Mechanical Test Plan Validation Failed", "",
     "**Coverage:** " ++ toString result.coverage_percentage ++ "% (" ++
       toString result.mapped_count ++ "/" ++
       toString result.requirements_count ++ " requirements mapped)", ""]
  let errors := result.violations.filter fun v => v.severity = "error"
  let warnings := result.violations.filter fun v => v.severity = "warning"
  let errLines :=
    if errors ≠ [] then
      ["### Errors (must fix)", ""] ++
        errors.map (fun v => "- **" ++ v.check_type ++ "**: " ++ v.message) ++ [""]
    else []
  let warnLines :=
    if warnings ≠ [] then
      ["### Warnings (consider fixing)", ""] ++
        warnings.map (fun v => "- **" ++ v.check_type ++ "**: " ++ v.message) ++ [""]
    else []
  String.intercalate "\n"
    (header ++ errLines ++ warnLines ++
     ["Please revise the LLD to address the errors above."])

/-- Embedding of `validate_test_plan_node` (validate_test_plan.py, lines 22-87),
parameterised by the imported validator.  At or above the attempt bound:
escalate without running the validator.  With an empty draft: error
without running the validator.  Otherwise: run the validator and return
the incremented attempt counter. -/
def validate_test_plan_node (validator : String → ValidationResult)
    (state : RequirementsState) : RequirementsUpdate :=
  let attempts := state.test_plan_validation_attempts
  if MAX_VALIDATION_ATTEMPTS ≤ attempts then
    { error_message := some ("Test plan validation failed after " ++
        toString MAX_VALIDATION_ATTEMPTS ++ " attempts — escalating"),
      test_plan_validation_attempts := some attempts }
  else if state.current_draft = "" then
    { error_message := some "No draft content for test plan validation" }
  else
    let result := validator state.current_draft
    let new_attempts := attempts + 1
    if result.passed then
      { test_plan_validation_result := some result,
        test_plan_validation_attempts := some new_attempts,
        iteration_count := some (state.iteration_count + 1),
        error_message := some "" }
    else
      { test_plan_validation_result := some result,
        test_plan_validation_attempts := some new_attempts,
        user_feedback := some (build_validation_feedback result),
        iteration_count := some (state.iteration_count + 1),
        lld_status := some "BLOCKED",
        error_message := some "" }

/-! ## Testing workflow: completeness gate node
(`src/assemblyzero/workflows/testing/nodes/completeness_gate.py`)

`run_ast_analysis`, `prepare_review_materials` and
`generate_implementation_report` live in modules that are not among the
sources (`completeness/ast_analyzer.py`, `completeness/report_generator.py`);
their outcomes enter as `Except` parameters (`.error` models a raised
exception).  The audit-trail writes and the execution-audit log entry are
side effects that do not touch the returned update and are omitted. -/

/-- Modelled from the spec: `CompletenessIssue` (category, file, line,
description, severity) from §3.1; the type is declared in the missing
`ast_analyzer` module. -/
structure CompletenessIssue where
  category : String
  file : String
  line : Nat
  description : String
  severity : String
  deriving Repr, DecidableEq

/-- Embedding of `CompletenessResult` as constructed by the gate itself
(completeness_gate.py, lines 122-127); the type is declared in the missing
`ast_analyzer` module and the field set matches §3.1. -/
structure CompletenessResult where
  verdict : String
  issues : List CompletenessIssue
  ast_analysis_ms : Nat
  gemini_review_ms : Option Nat
  deriving Repr, DecidableEq

/-- Modelled from the spec: the review materials prepared for the
orchestrator (LLD requirements and code snippets); the type is produced by
the missing `report_generator` module and is opaque to the gate's routing
fields. -/
structure ReviewMaterials where
  lld_requirements : List String := []
  code_snippets : List (String × String) := []
  deriving Repr, DecidableEq

/-- The partial state update returned by the gate; a `none` field is a key
absent from the returned dictionary. -/
structure CompletenessUpdate where
  completeness_verdict : Option String := none
  completeness_issues : Option (List CompletenessIssue) := none
  implementation_report_path : Option String := none
  error_message : Option String := none
  review_materials : Option ReviewMaterials := none
  deriving Repr, DecidableEq

/-- Embedding of `completeness_gate` (completeness_gate.py, lines 58-257), restricted
to the returned update.  `all_files` is `implementation_files +
test_files`; `lld_path_exists` is `lld_path and lld_path.exists()`.  With
no files: pass through.  An exception from `run_ast_analysis` is caught
(fail open) and replaced by a `WARN` verdict with no issues; exceptions
from layer-2 preparation and from report generation are caught and leave
their slot empty. -/
def completeness_gate (all_files : List String)
    (ast_outcome : Except String CompletenessResult)
    (lld_path_exists : Bool)
    (prep_outcome : Except String ReviewMaterials)
    (report_outcome : Except String String) : CompletenessUpdate :=
  if all_files = [] then
    { completeness_verdict := some "PASS", completeness_issues := some [],
      error_message := some "" }
  else
    let ast_result :=
      match ast_outcome with
      | .ok r => r
      | .error _ =>
        { verdict := "WARN", issues := [], ast_analysis_ms := 0,
          gemini_review_ms := none }
    let verdict := ast_result.verdict
    let review_materials :=
      if verdict ≠ "BLOCK" ∧ lld_path_exists = true then prep_outcome.toOption
      else none
    let implementation_report_path :=
      if lld_path_exists then
        match report_outcome with
        | .ok p => p
        | .error _ => ""
      else ""
    { completeness_verdict := some verdict,
      completeness_issues := some ast_result.issues,
      implementation_report_path := some implementation_report_path,
      error_message := some "",
      review_materials := review_materials }

/-- Every persisted reset time in the exhausted map parses
(`datetime.fromisoformat` succeeds on it). -/
def StampsWF (st : RotationState) : Prop :=
  ∀ p ∈ st.exhausted, p.2.isSome = true

/-! ## Fixtures for witnesses and counterexamples -/

/-- A credential pool of two enabled credentials with distinct names. -/
def credAlpha : Credential := { name := "alpha", key := "k1" }

/-- Second credential of the two-credential pool. -/
def credBeta : Credential := { name := "beta", key := "k2" }

/-- A transport whose first call hits a quota error and whose later calls
succeed (the spec's scenario: first credential quota-exhausted, next one
succeeds). -/
def quotaThenOkTransport : Nat → TransportOutcome :=
  fun n => if n = 0 then .err "429 Resource has been exhausted" else .ok "pong"

/-- A transport that always succeeds. -/
def alwaysOkTransport : Nat → TransportOutcome :=
  fun _ => .ok "pong"

/-- A rotation state whose persisted reset time for `"alpha"` does not
parse as a timestamp (`datetime.fromisoformat` raises on it). -/
def malformedStampState : RotationState :=
  { exhausted := [("alpha", none)] }

/-- A provider error message whose `reset after Nh Mm` pattern extracts a
zero duration. -/
def zeroResetMsg : String := "Your quota will reset after 0h0m58s"

/-- A provider error message with the documented reset pattern
(gemini_client.py, line 425). -/
def resetMsg15h11m : String := "Your quota will reset after 15h11m58s"

/-- A validator constant for instantiating node theorems. -/
def passingValidation : ValidationResult :=
  { passed := true, coverage_percentage := 100, mapped_count := 1,
    requirements_count := 1, tests_count := 1, violations := [] }

/-- A failing validation with one error violation. -/
def failingValidation : ValidationResult :=
  { passed := false, coverage_percentage := 50, mapped_count := 1,
    requirements_count := 2, tests_count := 1,
    violations := [{ severity := "error", check_type := "coverage",
                     message := "REQ-2 not covered" }] }

/-- A validator returning `passingValidation` on every draft. -/
def constPassValidator : String → ValidationResult :=
  fun _ => passingValidation

/-- A validator returning `failingValidation` on every draft. -/
def constFailValidator : String → ValidationResult :=
  fun _ => failingValidation

/-! ## Theorems -/

/-! ### Association-list and rotation-state lemmas -/

theorem lookupEntry_mem {m : List (String × Option Nat)} {k : String}
    {v : Option Nat} (h : lookupEntry m k = some v) : (k, v) ∈ m := by
  induction m with
  | nil => simp [lookupEntry] at h
  | cons p rest ih =>
    obtain ⟨k', v'⟩ := p
    by_cases hk : k' = k
    · subst hk
      simp [lookupEntry] at h
      subst h
      exact List.mem_cons_self _ _
    · simp [lookupEntry, hk] at h
      exact List.mem_cons_of_mem _ (ih h)

theorem lookupEntry_eraseEntry_self (m : List (String × Option Nat))
    (k : String) : lookupEntry (eraseEntry m k) k = none := by
  induction m with
  | nil => rfl
  | cons p rest ih =>
    obtain ⟨k', v'⟩ := p
    by_cases hk : k' = k <;> simp [eraseEntry, lookupEntry, hk, ih]

theorem lookupEntry_eraseEntry_ne (m : List (String × Option Nat))
    {k n : String} (h : n ≠ k) :
    lookupEntry (eraseEntry m k) n = lookupEntry m n := by
  induction m with
  | nil => rfl
  | cons p rest ih =>
    obtain ⟨k', v'⟩ := p
    by_cases hk : k' = k
    · subst hk
      have hkn : ¬ k' = n := fun he => h he.symm
      simp [eraseEntry, lookupEntry, hkn, ih]
    · by_cases hn : k' = n <;> simp [eraseEntry, lookupEntry, hk, hn, h, ih]

theorem mem_eraseEntry {m : List (String × Option Nat)} {k : String}
    {p : String × Option Nat} (h : p ∈ eraseEntry m k) : p ∈ m := by
  induction m with
  | nil => simp [eraseEntry] at h
  | cons q rest ih =>
    obtain ⟨k', v'⟩ := q
    by_cases hk : k' = k
    · simp [eraseEntry, hk] at h
      exact List.mem_cons_of_mem _ (ih h)
    · simp [eraseEntry, hk] at h
      rcases h with h | h
      · simp [h]
      · exact List.mem_cons_of_mem _ (ih h)

theorem lookupEntry_setEntry_self (m : List (String × Option Nat))
    (k : String) (v : Option Nat) :
    lookupEntry (setEntry m k v) k = some v := by
  induction m with
  | nil => simp [setEntry, lookupEntry]
  | cons p rest ih =>
    obtain ⟨k', v'⟩ := p
    by_cases hk : k' = k <;> simp [setEntry, lookupEntry, hk, ih]

theorem lookupEntry_setEntry_ne (m : List (String × Option Nat))
    {k n : String} (v : Option Nat) (h : n ≠ k) :
    lookupEntry (setEntry m k v) n = lookupEntry m n := by
  induction m with
  | nil =>
    have : k ≠ n := fun hkn => h hkn.symm
    simp [setEntry, lookupEntry, this]
  | cons p rest ih =>
    obtain ⟨k', v'⟩ := p
    by_cases hk : k' = k
    · subst hk
      have : k' ≠ n := fun hkn => h hkn.symm
      simp [setEntry, lookupEntry, this]
    · by_cases hn : k' = n <;> simp [setEntry, lookupEntry, hk, hn, h, ih]

theorem is_exhausted_wf {now : Nat} {c : Credential} {st : RotationState}
    (hwf : StampsWF st) : StampsWF (is_exhausted now c st).2 := by
  unfold is_exhausted
  cases h : lookupEntry st.exhausted c.name with
  | none => exact hwf
  | some v =>
    cases v with
    | none => exact hwf
    | some t =>
      by_cases ht : t ≤ now
      · simp only [ht, if_pos]
        intro p hp
        exact hwf p (mem_eraseEntry hp)
      · simp only [ht, if_neg, not_false_iff]
        exact hwf

theorem is_exhausted_preserves_none {now : Nat} {c : Credential}
    {st : RotationState} {n : String}
    (h : lookupEntry st.exhausted n = none) :
    lookupEntry (is_exhausted now c st).2.exhausted n = none := by
  unfold is_exhausted
  cases hl : lookupEntry st.exhausted c.name with
  | none => exact h
  | some v =>
    cases v with
    | none => exact h
    | some t =>
      by_cases ht : t ≤ now
      · simp only [ht, if_pos]
        by_cases hn : n = c.name
        · subst hn
          exact lookupEntry_eraseEntry_self _ _
        · rw [lookupEntry_eraseEntry_ne _ hn]
          exact h
      · simp only [ht, if_neg, not_false_iff]
        exact h

theorem is_exhausted_false_lookup {now : Nat} {c : Credential}
    {st : RotationState} (hwf : StampsWF st)
    (hfalse : (is_exhausted now c st).1 = false) :
    lookupEntry (is_exhausted now c st).2.exhausted c.name = none := by
  unfold is_exhausted at hfalse ⊢
  cases hl : lookupEntry st.exhausted c.name with
  | none => exact hl
  | some v =>
    cases v with
    | none =>
      have := hwf _ (lookupEntry_mem hl)
      simp at this
    | some t =>
      by_cases ht : t ≤ now
      · simp only [ht, if_pos]
        exact lookupEntry_eraseEntry_self _ _
      · rw [hl] at hfalse
        simp [ht] at hfalse

theorem filter_available_wf {now : Nat} {creds : List Credential}
    {st : RotationState} (hwf : StampsWF st) :
    StampsWF (filter_available now creds st).2 := by
  induction creds generalizing st with
  | nil => exact hwf
  | cons c rest ih =>
    unfold filter_available
    by_cases hc : c.enabled
    · simp only [hc, if_pos]
      exact ih (is_exhausted_wf hwf)
    · simp only [hc]
      simpa using ih hwf

theorem filter_available_preserves_none {now : Nat} {creds : List Credential}
    {st : RotationState} {n : String}
    (h : lookupEntry st.exhausted n = none) :
    lookupEntry (filter_available now creds st).2.exhausted n = none := by
  induction creds generalizing st with
  | nil => exact h
  | cons c rest ih =>
    unfold filter_available
    by_cases hc : c.enabled
    · simp only [hc, if_pos]
      exact ih (is_exhausted_preserves_none h)
    · simp only [hc]
      simpa using ih h

theorem filter_available_mem_none {now : Nat} {creds : List Credential}
    {st : RotationState} {c : Credential} (hwf : StampsWF st)
    (hc : c ∈ (filter_available now creds st).1) :
    lookupEntry (filter_available now creds st).2.exhausted c.name = none := by
  induction creds generalizing st with
  | nil => simp [filter_available] at hc
  | cons d rest ih =>
    unfold filter_available at hc ⊢
    by_cases hd : d.enabled
    · simp only [hd, if_pos] at hc ⊢
      by_cases hex : (is_exhausted now d st).1
      · simp only [hex, if_pos] at hc
        exact ih (is_exhausted_wf hwf) hc
      · simp only [hex] at hc
        simp only [Bool.false_eq_true, if_false] at hc
        rcases List.mem_cons.mp hc with h | h
        · subst h
          exact filter_available_preserves_none
            (is_exhausted_false_lookup hwf (by simpa using hex))
        · exact ih (is_exhausted_wf hwf) h
    · simp only [hd] at hc ⊢
      simp only [Bool.false_eq_true, if_false] at hc ⊢
      exact ih hwf hc

theorem try_credential_success_spec (tp : Nat → TransportOutcome)
    (now el : Nat) (mn : String) (cred : Credential) (rot : Bool) :
    ∀ (fuel total : Nat) (st : RotationState) (res : GeminiCallResult)
      (st' : RotationState),
      try_credential tp now el mn cred rot fuel total st = .success res st' →
      res.success = true ∧ res.credential_used = cred.name ∧
      res.rotation_occurred = rot ∧ st'.exhausted = st.exhausted ∧
      total + 1 ≤ res.attempts := by
  intro fuel
  induction fuel with
  | zero =>
    intro total st res st' h
    simp [try_credential] at h
  | succ fuel ih =>
    intro total st res st' h
    rw [try_credential] at h
    split at h
    · split at h
      · cases h
        exact ⟨rfl, rfl, rfl, rfl, Nat.le_refl _⟩
      · obtain ⟨h1, h2, h3, h4, h5⟩ := ih (total + 1) st res st' h
        exact ⟨h1, h2, h3, h4, by omega⟩
    · split at h
      · obtain ⟨h1, h2, h3, h4, h5⟩ := ih (total + 1) st res st' h
        exact ⟨h1, h2, h3, h4, by omega⟩
      · simp at h
      · simp at h
      · simp at h

theorem try_credential_nextCred_spec (tp : Nat → TransportOutcome)
    (now el : Nat) (mn : String) (cred : Credential) (rot : Bool) :
    ∀ (fuel total : Nat) (st : RotationState) (errs : List String)
      (total' : Nat) (st' : RotationState),
      try_credential tp now el mn cred rot fuel total st =
        .nextCred errs total' st' →
      total ≤ total' ∧ (fuel ≠ 0 → total + 1 ≤ total') ∧
      ∀ n, n ≠ cred.name →
        lookupEntry st'.exhausted n = lookupEntry st.exhausted n := by
  intro fuel
  induction fuel with
  | zero =>
    intro total st errs total' st' h
    rw [try_credential] at h
    injection h with h1 h2 h3
    subst h2
    subst h3
    exact ⟨Nat.le_refl _, fun h0 => absurd rfl h0, fun n _ => rfl⟩
  | succ fuel ih =>
    intro total st errs total' st' h
    rw [try_credential] at h
    split at h
    · split at h
      · simp at h
      · obtain ⟨h1, _, h3⟩ := ih (total + 1) st errs total' st' h
        exact ⟨by omega, fun _ => h1, h3⟩
    · split at h
      · obtain ⟨h1, _, h3⟩ := ih (total + 1) st errs total' st' h
        exact ⟨by omega, fun _ => h1, h3⟩
      · injection h with h1 h2 h3
        subst h2
        subst h3
        refine ⟨Nat.le_succ _, fun _ => Nat.le_refl _, fun n hn => ?_⟩
        exact lookupEntry_setEntry_ne _ _ hn
      · injection h with h1 h2 h3
        subst h2
        subst h3
        exact ⟨Nat.le_succ _, fun _ => Nat.le_refl _, fun n _ => rfl⟩
      · injection h with h1 h2 h3
        subst h2
        subst h3
        exact ⟨Nat.le_succ _, fun _ => Nat.le_refl _, fun n _ => rfl⟩

theorem run_credentials_inl_spec (tp : Nat → TransportOutcome)
    (now el maxR : Nat) (mn initialName : String) :
    ∀ (creds : List Credential) (errs : List String) (total : Nat)
      (st : RotationState) (res : GeminiCallResult) (st' : RotationState),
      run_credentials tp now el maxR mn initialName creds errs total st =
        .inl (res, st') →
      res.success = true ∧ 1 ≤ res.attempts ∧
      ∃ c ∈ creds, res.credential_used = c.name ∧
        res.rotation_occurred = (c.name != initialName) := by
  intro creds
  induction creds with
  | nil =>
    intro errs total st res st' h
    simp [run_credentials] at h
  | cons c rest ih =>
    intro errs total st res st' h
    rw [run_credentials] at h
    cases htc : try_credential tp now el mn c (c.name != initialName)
        maxR total st with
    | success res₀ st₀ =>
      rw [htc] at h
      injection h with h1
      injection h1 with h2 h3
      subst h2
      obtain ⟨hs, hcu, hrot, _, hatt⟩ :=
        try_credential_success_spec tp now el mn c _ maxR total st res₀ st₀ htc
      exact ⟨hs, by omega, c, List.mem_cons_self _ _, hcu, hrot⟩
    | nextCred e t' s' =>
      rw [htc] at h
      obtain ⟨h1, h2, c', hc', h3, h4⟩ := ih _ _ _ _ _ h
      exact ⟨h1, h2, c', List.mem_cons_of_mem _ hc', h3, h4⟩

theorem run_credentials_inl_not_exhausted (tp : Nat → TransportOutcome)
    (now el maxR : Nat) (mn initialName : String) :
    ∀ (creds : List Credential) (errs : List String) (total : Nat)
      (st : RotationState) (res : GeminiCallResult) (st' : RotationState),
      (creds.map Credential.name).Nodup →
      (∀ c ∈ creds, lookupEntry st.exhausted c.name = none) →
      run_credentials tp now el maxR mn initialName creds errs total st =
        .inl (res, st') →
      lookupEntry st'.exhausted res.credential_used = none := by
  intro creds
  induction creds with
  | nil =>
    intro errs total st res st' _ _ h
    simp [run_credentials] at h
  | cons c rest ih =>
    intro errs total st res st' hnd hnone h
    rw [run_credentials] at h
    cases htc : try_credential tp now el mn c (c.name != initialName)
        maxR total st with
    | success res₀ st₀ =>
      rw [htc] at h
      injection h with h1
      injection h1 with h2 h3
      subst h2
      subst h3
      obtain ⟨_, hcu, _, hex, _⟩ :=
        try_credential_success_spec tp now el mn c _ maxR total st res₀ st₀ htc
      rw [hcu, hex]
      exact hnone c (List.mem_cons_self _ _)
    | nextCred e t' s' =>
      rw [htc] at h
      have hndTail : (rest.map Credential.name).Nodup :=
        (List.nodup_cons.mp (by simpa using hnd)).2
      have hHead : c.name ∉ rest.map Credential.name :=
        (List.nodup_cons.mp (by simpa using hnd)).1
      refine ih _ _ _ _ _ hndTail (fun c' hc' => ?_) h
      have hne : c'.name ≠ c.name := by
        intro he
        exact hHead (he ▸ List.mem_map_of_mem Credential.name hc')
      have hpres :=
        (try_credential_nextCred_spec tp now el mn c _ maxR total st e t' s'
          htc).2.2 c'.name hne
      rw [hpres]
      exact hnone c' (List.mem_cons_of_mem _ hc')

theorem run_credentials_inr_total_mono (tp : Nat → TransportOutcome)
    (now el maxR : Nat) (mn initialName : String) :
    ∀ (creds : List Credential) (errs : List String) (total : Nat)
      (st : RotationState) (errs' : List String) (total' : Nat)
      (st' : RotationState),
      run_credentials tp now el maxR mn initialName creds errs total st =
        .inr (errs', total', st') →
      total ≤ total' := by
  intro creds
  induction creds with
  | nil =>
    intro errs total st errs' total' st' h
    rw [run_credentials] at h
    injection h with h1
    injection h1 with h2 h3
    injection h3 with h4 h5
    omega
  | cons c rest ih =>
    intro errs total st errs' total' st' h
    rw [run_credentials] at h
    cases htc : try_credential tp now el mn c (c.name != initialName)
        maxR total st with
    | success res₀ st₀ =>
      rw [htc] at h
      simp at h
    | nextCred e t' s' =>
      rw [htc] at h
      have h1 :=
        (try_credential_nextCred_spec tp now el mn c _ maxR total st e t' s'
          htc).1
      have h2 := ih _ _ _ _ _ _ h
      omega

theorem run_credentials_inr_total_pos (tp : Nat → TransportOutcome)
    (now el maxR : Nat) (mn initialName : String) (hmax : maxR ≠ 0)
    (creds : List Credential) (errs : List String) (st : RotationState)
    (errs' : List String) (total' : Nat) (st' : RotationState)
    (hne : creds ≠ [])
    (h : run_credentials tp now el maxR mn initialName creds errs 0 st =
      .inr (errs', total', st')) :
    1 ≤ total' := by
  cases creds with
  | nil => exact absurd rfl hne
  | cons c rest =>
    rw [run_credentials] at h
    cases htc : try_credential tp now el mn c (c.name != initialName)
        maxR 0 st with
    | success res₀ st₀ =>
      rw [htc] at h
      simp at h
    | nextCred e t' s' =>
      rw [htc] at h
      have h1 :=
        (try_credential_nextCred_spec tp now el mn c _ maxR 0 st e t' s'
          htc).2.1 hmax
      have h2 := run_credentials_inr_total_mono tp now el maxR mn initialName
        _ _ _ _ _ _ _ h
      omega

theorem filter_available_sublist (now : Nat) (creds : List Credential)
    (st : RotationState) :
    (filter_available now creds st).1.Sublist creds := by
  induction creds generalizing st with
  | nil => simp [filter_available]
  | cons c rest ih =>
    unfold filter_available
    by_cases hc : c.enabled
    · simp only [hc, if_pos]
      by_cases hex : (is_exhausted now c st).1
      · simp only [hex, if_pos]
        exact (ih _).cons c
      · simp only [hex, Bool.false_eq_true, if_false]
        exact (ih _).cons₂ c
    · simp only [hc, Bool.false_eq_true, if_false]
      exact (ih _).cons c

/-- C1: the completeness-gate router returns `"end"` when `error_message`
is non-empty; otherwise on verdict `BLOCK` it returns `"N4_implement_code"`
below 3 iterations and `"end"` at 3 or more; any other verdict routes to
`"N5_verify_green"`. -/
theorem route_after_completeness_gate_spec (s : TestingGateState) :
    (s.error_message ≠ "" → route_after_completeness_gate s = "end") ∧
    (s.error_message = "" → s.completeness_verdict = "BLOCK" →
      s.iteration_count < 3 →
      route_after_completeness_gate s = "N4_implement_code") ∧
    (s.error_message = "" → s.completeness_verdict = "BLOCK" →
      3 ≤ s.iteration_count →
      route_after_completeness_gate s = "end") ∧
    (s.error_message = "" → s.completeness_verdict ≠ "BLOCK" →
      route_after_completeness_gate s = "N5_verify_green") := by
  refine ⟨fun h => ?_, fun he hv hi => ?_, fun he hv hi => ?_, fun he hv => ?_⟩ <;>
    simp [route_after_completeness_gate, MAX_COMPLETENESS_ITERATIONS, *]

/-- Witness for C1: at the state with no error, verdict `BLOCK` and
iteration count 3, the router returns `"end"`. -/
theorem route_after_completeness_gate_spec_witness :
    route_after_completeness_gate ⟨"", "BLOCK", 3⟩ = "end" :=
  (route_after_completeness_gate_spec ⟨"", "BLOCK", 3⟩).2.2.1 rfl rfl
    (by decide)

/-! ### Gemini rotator theorems -/

theorem gemini_invoke_attempts_aux (tp : Nat → TransportOutcome)
    (now el maxR : Nat) (mn : String) (credentials : List Credential)
    (st0 : RotationState) (hmax : 1 ≤ maxR) :
    ((filter_available now credentials st0).1 = [] →
      (gemini_invoke tp now el maxR mn credentials st0).1.attempts = 0) ∧
    ((filter_available now credentials st0).1 ≠ [] →
      1 ≤ (gemini_invoke tp now el maxR mn credentials st0).1.attempts) := by
  constructor
  · intro hfa
    simp only [gemini_invoke, hfa]
  · intro hne
    rcases hfa : (filter_available now credentials st0).1 with _ | ⟨c0, rest⟩
    · exact absurd hfa hne
    · simp only [gemini_invoke, hfa]
      rcases hrun : run_credentials tp now el maxR mn c0.name (c0 :: rest) [] 0
          (filter_available now credentials st0).2 with ⟨res, st'⟩ |
          ⟨errs, total, st'⟩
      · simp only [hrun]
        exact (run_credentials_inl_spec tp now el maxR mn c0.name
          (c0 :: rest) [] 0 _ res st' hrun).2.1
      · simp only [hrun]
        exact run_credentials_inr_total_pos tp now el maxR mn c0.name
          (by omega) (c0 :: rest) [] _ errs total st' (by simp) hrun

/-- C3 counterexample: with a single enabled credential whose persisted
reset time does not parse, the call succeeds with that credential while
its name is still a key of the persisted exhausted map on return
(`_is_exhausted` returns `False` for the unparseable entry without
deleting it). -/
theorem gemini_success_exhausted_counterexample :
    (gemini_invoke alwaysOkTransport 0 5 1 "gemini-3-pro" [credAlpha]
        malformedStampState).1.success = true ∧
    (gemini_invoke alwaysOkTransport 0 5 1 "gemini-3-pro" [credAlpha]
        malformedStampState).1.credential_used = "alpha" ∧
    lookupEntry (gemini_invoke alwaysOkTransport 0 5 1 "gemini-3-pro"
        [credAlpha] malformedStampState).2.exhausted "alpha" = some none := by
  decide

/-- C3 amended: when every persisted reset time in the loaded rotation
state parses and the credential names are pairwise distinct, a successful
`GeminiClient.invoke` returns with the used credential's name absent from
the persisted exhausted map. -/
theorem gemini_invoke_success_not_exhausted (tp : Nat → TransportOutcome)
    (now el maxR : Nat) (mn : String) (credentials : List Credential)
    (st0 : RotationState) (hwf : StampsWF st0)
    (hnd : (credentials.map Credential.name).Nodup)
    (hs : (gemini_invoke tp now el maxR mn credentials st0).1.success = true) :
    lookupEntry (gemini_invoke tp now el maxR mn credentials st0).2.exhausted
      (gemini_invoke tp now el maxR mn credentials st0).1.credential_used =
      none := by
  rcases hfa : (filter_available now credentials st0).1 with _ | ⟨c0, rest⟩
  · simp only [gemini_invoke, hfa] at hs
    simp at hs
  · simp only [gemini_invoke, hfa] at hs ⊢
    rcases hrun : run_credentials tp now el maxR mn c0.name (c0 :: rest) [] 0
        (filter_available now credentials st0).2 with ⟨res, st'⟩ |
        ⟨errs, total, st'⟩
    · simp only [hrun] at hs ⊢
      have hsub := filter_available_sublist now credentials st0
      rw [hfa] at hsub
      refine run_credentials_inl_not_exhausted tp now el maxR mn c0.name
        (c0 :: rest) [] 0 _ res st' ?_ ?_ hrun
      · exact hnd.sublist (hsub.map Credential.name)
      · intro c hc
        exact filter_available_mem_none hwf (hfa ▸ hc)
    · simp only [hrun] at hs
      simp at hs

/-- Witness for C3 (amended): pool `[alpha, beta]`, empty rotation state,
first transport call quota-errors and the second succeeds; on return the
used credential's name is not in the persisted exhausted map. -/
theorem gemini_invoke_success_not_exhausted_witness :
    lookupEntry (gemini_invoke quotaThenOkTransport 0 5 1 "gemini-3-pro"
        [credAlpha, credBeta] {}).2.exhausted
      (gemini_invoke quotaThenOkTransport 0 5 1 "gemini-3-pro"
        [credAlpha, credBeta] {}).1.credential_used = none :=
  gemini_invoke_success_not_exhausted quotaThenOkTransport 0 5 1 "gemini-3-pro"
    [credAlpha, credBeta] {} (by intro p hp; simp at hp) (by decide) (by decide)

/-- C4: on a successful `GeminiClient.invoke`, the result's
`rotation_occurred` flag is true iff the name of the credential that
produced the success differs from the head of the filtered list of
enabled, non-exhausted credentials computed at the start of the call. -/
theorem gemini_rotation_flag_spec (tp : Nat → TransportOutcome)
    (now el maxR : Nat) (mn : String) (credentials : List Credential)
    (st0 : RotationState)
    (hs : (gemini_invoke tp now el maxR mn credentials st0).1.success = true) :
    ∃ c0, (filter_available now credentials st0).1.head? = some c0 ∧
      ((gemini_invoke tp now el maxR mn credentials st0).1.rotation_occurred =
          true ↔
        (gemini_invoke tp now el maxR mn credentials st0).1.credential_used ≠
          c0.name) := by
  rcases hfa : (filter_available now credentials st0).1 with _ | ⟨c0, rest⟩
  · simp only [gemini_invoke, hfa] at hs
    simp at hs
  · refine ⟨c0, rfl, ?_⟩
    simp only [gemini_invoke, hfa] at hs ⊢
    rcases hrun : run_credentials tp now el maxR mn c0.name (c0 :: rest) [] 0
        (filter_available now credentials st0).2 with ⟨res, st'⟩ |
        ⟨errs, total, st'⟩
    · simp only [hrun] at hs ⊢
      obtain ⟨_, _, c, _, hcu, hrot⟩ := run_credentials_inl_spec tp now el maxR
        mn c0.name (c0 :: rest) [] 0 _ res st' hrun
      rw [hcu, hrot]
      simp [bne_iff_ne]
    · simp only [hrun] at hs
      simp at hs

/-- Witness for C4: pool `[alpha, beta]` with the first call
quota-erroring; the success comes from `beta`, which differs from the head
`alpha`, and the rotation flag is set. -/
theorem gemini_rotation_flag_spec_witness :
    ∃ c0, (filter_available 0 [credAlpha, credBeta]
        ({} : RotationState)).1.head? = some c0 ∧
      ((gemini_invoke quotaThenOkTransport 0 5 1 "gemini-3-pro"
          [credAlpha, credBeta] {}).1.rotation_occurred = true ↔
        (gemini_invoke quotaThenOkTransport 0 5 1 "gemini-3-pro"
          [credAlpha, credBeta] {}).1.credential_used ≠ c0.name) :=
  gemini_rotation_flag_spec quotaThenOkTransport 0 5 1 "gemini-3-pro"
    [credAlpha, credBeta] {} (by decide)

/-! ### Audit numbering lemmas -/

theorem seqFold_foldl_acc (g : String → Option Nat) (files : List String) :
    ∀ acc : Nat,
      List.foldl
        (fun mx f =>
          match g f with
          | some n => max mx n
          | none => mx) acc files =
        max acc ((files.filterMap g).foldr max 0) := by
  induction files with
  | nil => intro acc; simp
  | cons f rest ih =>
    intro acc
    cases hg : g f with
    | some n =>
      simp only [List.foldl_cons, hg, List.filterMap_cons, List.foldr_cons]
      rw [ih]
      exact Nat.max_assoc _ _ _
    | none =>
      simp only [List.foldl_cons, hg, List.filterMap_cons]
      exact ih acc

theorem seqFold_eq (g : String → Option Nat) (files : List String) :
    seqFold g files = (files.filterMap g).foldr max 0 := by
  rw [seqFold, seqFold_foldl_acc]
  omega

theorem le_foldr_max (n : Nat) :
    ∀ l : List Nat, n ∈ l → n ≤ l.foldr max 0 := by
  intro l
  induction l with
  | nil => intro h; simp at h
  | cons a t ih =>
    intro h
    rcases List.mem_cons.mp h with rfl | h
    · exact Nat.le_max_left _ _
    · exact Nat.le_trans (ih h) (Nat.le_max_right _ _)

/-- C7 counterexample: on a directory holding only `042-draft.md` (whose
`NNN-` prefix is 42), the issue-workflow `next_file_number` returns 1, not
`1 + 42`: its regular expression searches for a `-NNN-` infix, which never
matches a bare `NNN-` prefix, so the returned number is not greater than
the existing sequence number. -/
theorem next_file_number_issue_counterexample :
    lldSeqNum "042-draft.md" = some 42 ∧
    next_file_number_issue (some ["042-draft.md"]) = 1 ∧
    ¬ 42 < next_file_number_issue (some ["042-draft.md"]) := by
  decide

/-- C7 amended: the LLD-workflow `next_file_number` returns 1 plus the
maximum `NNN-` prefix (1 for a missing directory or no match) and is
strictly greater than every `NNN-` prefix present; the issue-workflow
`next_file_number` satisfies the same property for the first `-NNN-`
infix of each file name, matching its own `{slug}-{NNN}-{suffix}` artifact
naming. -/
theorem next_file_number_spec :
    next_file_number_lld none = 1 ∧
    (∀ files, next_file_number_lld (some files) =
      (files.filterMap lldSeqNum).foldr max 0 + 1) ∧
    (∀ files f n, f ∈ files → lldSeqNum f = some n →
      n < next_file_number_lld (some files)) ∧
    next_file_number_issue none = 1 ∧
    (∀ files, next_file_number_issue (some files) =
      (files.filterMap issueSeqNum).foldr max 0 + 1) ∧
    (∀ files f n, f ∈ files → issueSeqNum f = some n →
      n < next_file_number_issue (some files)) := by
  refine ⟨rfl, fun files => ?_, fun files f n hf hn => ?_, rfl,
    fun files => ?_, fun files f n hf hn => ?_⟩
  · simp [next_file_number_lld, seqFold_eq]
  · have hmem : n ∈ files.filterMap lldSeqNum :=
      List.mem_filterMap.mpr ⟨f, hf, hn⟩
    have h2 := le_foldr_max n _ hmem
    simp only [next_file_number_lld, seqFold_eq]
    omega
  · simp [next_file_number_issue, seqFold_eq]
  · have hmem : n ∈ files.filterMap issueSeqNum :=
      List.mem_filterMap.mpr ⟨f, hf, hn⟩
    have h2 := le_foldr_max n _ hmem
    simp only [next_file_number_issue, seqFold_eq]
    omega

/-- Witness for C7 (amended): the LLD variant tops the `042-` prefix; the
issue variant tops the `-003-` infix of its `{slug}-{NNN}-{suffix}`
name. -/
theorem next_file_number_spec_witness :
    42 < next_file_number_lld (some ["042-draft.md"]) ∧
    3 < next_file_number_issue (some ["Abc4567-0001-003-draft.md"]) :=
  ⟨next_file_number_spec.2.2.1 ["042-draft.md"] "042-draft.md" 42
      (by decide) (by decide),
   next_file_number_spec.2.2.2.2.2 ["Abc4567-0001-003-draft.md"]
      "Abc4567-0001-003-draft.md" 3 (by decide) (by decide)⟩

/-! ### Governance audit log lemmas -/

theorem audit_log_append_all_eq {α : Type} (encode : α → String)
    (file : List String) (entries : List α) :
    audit_log_append_all encode file entries = file ++ entries.map encode := by
  induction entries generalizing file with
  | nil => simp [audit_log_append_all]
  | cons e es ih =>
    have h0 : audit_log_append_all encode file (e :: es) =
        audit_log_append_all encode (file ++ [encode e]) es := rfl
    rw [h0, ih]
    simp

theorem audit_log_entries_nil_of_malformed {α : Type}
    (decode : String → Option α) (file : List String)
    (hmal : ∀ l ∈ file, stripStr l = "" ∨ decode (stripStr l) = none) :
    audit_log_entries decode file = [] := by
  induction file with
  | nil => rfl
  | cons l rest ih =>
    have ih' := ih fun l' hl' => hmal l' (List.mem_cons_of_mem _ hl')
    by_cases hs : stripStr l = ""
    · simpa [audit_log_entries, List.filterMap_cons, hs] using ih'
    · have hd := (hmal l (List.mem_cons_self _ _)).resolve_left hs
      simpa [audit_log_entries, List.filterMap_cons, hs, hd] using ih'

theorem audit_log_entries_map {α : Type} (encode : α → String)
    (decode : String → Option α)
    (hrt : ∀ e, decode (stripStr (encode e)) = some e)
    (hne : ∀ e, stripStr (encode e) ≠ "")
    (entries : List α) :
    audit_log_entries decode (entries.map encode) = entries := by
  induction entries with
  | nil => rfl
  | cons e es ih =>
    simpa [audit_log_entries, List.filterMap_cons, hne e, hrt e] using ih

/-- C8: appending N well-formed entries to a log file whose existing lines
are all blank or malformed, then iterating, yields exactly those N entries
in order; the existing lines (malformed ones included) are never removed —
the old file is a prefix of the new one.  The JSON codec enters through
the hypotheses it satisfies: a dumped entry is a non-blank line that loads
back to the entry. -/
theorem audit_log_roundtrip {α : Type} (encode : α → String)
    (decode : String → Option α)
    (hrt : ∀ e, decode (stripStr (encode e)) = some e)
    (hne : ∀ e, stripStr (encode e) ≠ "")
    (file : List String)
    (hmal : ∀ l ∈ file, stripStr l = "" ∨ decode (stripStr l) = none)
    (entries : List α) :
    audit_log_entries decode (audit_log_append_all encode file entries) =
      entries ∧
    file <+: audit_log_append_all encode file entries := by
  constructor
  · rw [audit_log_append_all_eq]
    have h1 : audit_log_entries decode (file ++ entries.map encode) =
        audit_log_entries decode file ++
          audit_log_entries decode (entries.map encode) := by
      simp [audit_log_entries, List.filterMap_append]
    rw [h1, audit_log_entries_nil_of_malformed decode file hmal,
      audit_log_entries_map encode decode hrt hne, List.nil_append]
  · rw [audit_log_append_all_eq]
    exact List.prefix_append _ _

/-- Witness for C8: two appends after a file holding a malformed line and
a blank line read back as exactly the two entries, and the old lines are
still there. -/
theorem audit_log_roundtrip_witness :
    audit_log_entries boolDecode
        (audit_log_append_all boolEncode ["garbage", "  "] [true, false]) =
      [true, false] ∧
    ["garbage", "  "] <+:
      audit_log_append_all boolEncode ["garbage", "  "] [true, false] :=
  audit_log_roundtrip boolEncode boolDecode
    (by intro e; cases e <;> decide) (by intro e; cases e <;> decide)
    ["garbage", "  "] (by decide) [true, false]

/-- C9 counterexample: below the attempt bound but with an empty draft,
`validate_test_plan_node` neither runs the validator nor increments the
attempt counter: the returned update carries no
`test_plan_validation_attempts` key at all, only an error message. -/
theorem validate_test_plan_node_counterexample :
    (validate_test_plan_node constPassValidator
        ⟨0, "", 0⟩).test_plan_validation_attempts = none ∧
    (validate_test_plan_node constPassValidator ⟨0, "", 0⟩).error_message =
      some "No draft content for test plan validation" := by
  decide

/-- C9 amended: at or above `MAX_VALIDATION_ATTEMPTS` the node escalates
with a non-empty error message without running the validator (the update
does not depend on the validator); below the bound with an empty draft it
errors without running the validator or incrementing the counter; below
the bound with a non-empty draft it runs the validator and returns the
counter incremented by one. -/
theorem validate_test_plan_node_spec (v v' : String → ValidationResult)
    (s : RequirementsState) :
    (MAX_VALIDATION_ATTEMPTS ≤ s.test_plan_validation_attempts →
      validate_test_plan_node v s = validate_test_plan_node v' s ∧
      ∃ msg, (validate_test_plan_node v s).error_message = some msg ∧
        msg ≠ "") ∧
    (s.test_plan_validation_attempts < MAX_VALIDATION_ATTEMPTS →
      s.current_draft = "" →
      validate_test_plan_node v s = validate_test_plan_node v' s ∧
      (validate_test_plan_node v s).error_message =
        some "No draft content for test plan validation" ∧
      (validate_test_plan_node v s).test_plan_validation_attempts = none) ∧
    (s.test_plan_validation_attempts < MAX_VALIDATION_ATTEMPTS →
      s.current_draft ≠ "" →
      (validate_test_plan_node v s).test_plan_validation_attempts =
        some (s.test_plan_validation_attempts + 1) ∧
      (validate_test_plan_node v s).test_plan_validation_result =
        some (v s.current_draft) ∧
      (validate_test_plan_node v s).error_message = some "") := by
  refine ⟨fun h => ?_, fun h hd => ?_, fun h hd => ?_⟩
  · refine ⟨by simp [validate_test_plan_node, h], ?_⟩
    refine ⟨"Test plan validation failed after " ++
      toString MAX_VALIDATION_ATTEMPTS ++ " attempts — escalating",
      by simp [validate_test_plan_node, h], by decide⟩
  · have hnot : ¬ MAX_VALIDATION_ATTEMPTS ≤ s.test_plan_validation_attempts :=
      by omega
    exact ⟨by simp [validate_test_plan_node, hnot, hd],
      by simp [validate_test_plan_node, hnot, hd],
      by simp [validate_test_plan_node, hnot, hd]⟩
  · have hnot : ¬ MAX_VALIDATION_ATTEMPTS ≤ s.test_plan_validation_attempts :=
      by omega
    by_cases hp : (v s.current_draft).passed <;>
      simp [validate_test_plan_node, hnot, hd, hp]

/-- Witness for C9 (amended): at attempt count 3 the update is
validator-independent; at attempt count 0 with a draft the counter comes
back as 1. -/
theorem validate_test_plan_node_spec_witness :
    validate_test_plan_node constPassValidator ⟨3, "# LLD", 1⟩ =
      validate_test_plan_node constFailValidator ⟨3, "# LLD", 1⟩ ∧
    (validate_test_plan_node constPassValidator
        ⟨0, "# LLD", 1⟩).test_plan_validation_attempts = some 1 :=
  ⟨((validate_test_plan_node_spec constPassValidator constFailValidator
      ⟨3, "# LLD", 1⟩).1 (by decide)).1,
   ((validate_test_plan_node_spec constPassValidator constFailValidator
      ⟨0, "# LLD", 1⟩).2.2 (by decide) (by decide)).1⟩

/-- C10: with a non-empty file list, an exception from `run_ast_analysis`
does not fail the workflow: the gate fails open with verdict `WARN`, no
issues and an empty `error_message`, and the router on the merged state
then proceeds to `N5_verify_green` for any iteration count. -/
theorem completeness_gate_fail_open (files : List String) (hne : files ≠ [])
    (e : String) (lld : Bool) (prep : Except String ReviewMaterials)
    (report : Except String String) (it : Nat) :
    (completeness_gate files (.error e) lld prep report).completeness_verdict =
      some "WARN" ∧
    (completeness_gate files (.error e) lld prep report).completeness_issues =
      some [] ∧
    (completeness_gate files (.error e) lld prep report).error_message =
      some "" ∧
    route_after_completeness_gate ⟨"", "WARN", it⟩ = "N5_verify_green" := by
  refine ⟨?_, ?_, ?_, rfl⟩ <;> simp [completeness_gate, hne]

/-- Witness for C10: one implementation file, AST analysis raising
`"boom"`; the gate returns `WARN` and the router goes to verify. -/
theorem completeness_gate_fail_open_witness :
    (completeness_gate ["src/a.py"] (Except.error "boom") true
        (Except.ok {}) (Except.ok "report.md")).completeness_verdict =
      some "WARN" ∧
    route_after_completeness_gate ⟨"", "WARN", 1⟩ = "N5_verify_green" :=
  ⟨(completeness_gate_fail_open ["src/a.py"] (by decide) "boom" true
      (Except.ok {}) (Except.ok "report.md") 1).1,
   (completeness_gate_fail_open ["src/a.py"] (by decide) "boom" true
      (Except.ok {}) (Except.ok "report.md") 1).2.2.2⟩

/-- C6 counterexample: the error string `zeroResetMsg` contains the
pattern `reset after 0h0m...`, whose extracted duration is `0 + 0/60`
hours, but because `_parse_reset_time(...) or 24` treats the float `0.0`
as falsy, the recorded window is 24 hours (1440 minutes), not the
extracted zero: at `now = 100` the recorded expiry is `1540`, not `100`. -/
theorem quota_reset_zero_counterexample :
    parse_reset_time zeroResetMsg = some 0 ∧
    effective_reset_minutes zeroResetMsg = 1440 ∧
    lookupEntry (mark_exhausted 100 credAlpha
        (effective_reset_minutes zeroResetMsg) {}).exhausted "alpha" =
      some (some 1540) := by
  decide

/-- C6 amended: when the `reset after Nh Mm` pattern is present and
extracts a non-zero duration, the credential is marked exhausted until
`now` plus that duration (`60*N + M` minutes); when the pattern is absent
— or extracts a zero duration, which Python's `or` treats as falsy — the
24-hour (1440-minute) default window is used. -/
theorem quota_reset_window_spec (err : String) (now : Nat) (cred : Credential)
    (st : RotationState) :
    (∀ m, parse_reset_time err = some m → m ≠ 0 →
      lookupEntry (mark_exhausted now cred (effective_reset_minutes err)
          st).exhausted cred.name = some (some (now + m))) ∧
    (parse_reset_time err = some 0 →
      lookupEntry (mark_exhausted now cred (effective_reset_minutes err)
          st).exhausted cred.name = some (some (now + 1440))) ∧
    (parse_reset_time err = none →
      lookupEntry (mark_exhausted now cred (effective_reset_minutes err)
          st).exhausted cred.name = some (some (now + 1440))) := by
  refine ⟨fun m hm hm0 => ?_, fun h0 => ?_, fun hn => ?_⟩ <;>
    simp [mark_exhausted, effective_reset_minutes, *,
      lookupEntry_setEntry_self]

/-- Witness for C6 (amended): the documented example string extracts
`15h11m` = 911 minutes and the recorded expiry is `now + 911`. -/
theorem quota_reset_window_spec_witness :
    parse_reset_time resetMsg15h11m = some 911 ∧
    lookupEntry (mark_exhausted 0 credBeta
        (effective_reset_minutes resetMsg15h11m) {}).exhausted
      credBeta.name = some (some (0 + 911)) :=
  ⟨by decide, (quota_reset_window_spec resetMsg15h11m 0 credBeta {}).1 911
      (by decide) (by decide)⟩

/-- C5 counterexample: when the CLI executable is not found,
`ClaudeCLIProvider.invoke` returns a result with `attempts = 0`,
refuting `attempts >= 1` on the executable-not-found failure branch. -/
theorem provider_attempts_counterexample :
    (claude_cli_invoke
        (Except.error
          "claude command not found. Ensure Claude Code is installed.")
        SubprocessResult.timedOut none 0 "opus" 300).attempts = 0 := by
  decide

/-- C5 amended: every embedded provider result has `duration_ms ≥ 0`
(durations are measured from a monotone clock), and `attempts ≥ 1` holds
in every branch that attempts a call; the no-attempt failure branches —
CLI executable not found, Anthropic API key missing, rotating-provider
exception, and empty credential pool — return `attempts = 0`. -/
theorem provider_attempts_amended :
    (∀ r : LLMCallResult, 0 ≤ r.duration_ms) ∧
    (∀ e run js el m t,
      (claude_cli_invoke (Except.error e) run js el m t).attempts = 0) ∧
    (∀ p run js el m t,
      (claude_cli_invoke (Except.ok p) run js el m t).attempts = 1) ∧
    (∀ call el m t, (anthropic_invoke none call el m t).attempts = 0) ∧
    (∀ k call el m t, (anthropic_invoke (some k) call el m t).attempts = 1) ∧
    (∀ rs fc cc m, (mock_invoke rs fc cc m).attempts = 1) ∧
    (∀ e m, (gemini_provider_invoke (Except.error e) m).attempts = 0) ∧
    (∀ r m, (gemini_provider_invoke (Except.ok r) m).attempts = r.attempts) ∧
    (∀ tp now el maxR mn creds st0, 1 ≤ maxR →
      ((filter_available now creds st0).1 = [] →
        (gemini_invoke tp now el maxR mn creds st0).1.attempts = 0) ∧
      ((filter_available now creds st0).1 ≠ [] →
        1 ≤ (gemini_invoke tp now el maxR mn creds st0).1.attempts)) := by
  refine ⟨fun r => Nat.zero_le _, fun e run js el m t => rfl, ?_,
    fun call el m t => rfl, ?_, ?_, fun e m => rfl, fun r m => rfl, ?_⟩
  · intro p run js el m t
    cases run with
    | completed rc stdout stderr =>
      by_cases h : rc ≠ 0 <;> simp [claude_cli_invoke, h]
    | timedOut => rfl
    | raised msg => rfl
  · intro k call el m t
    cases call <;> rfl
  · intro rs fc cc m
    simp only [mock_invoke]
    split <;> rfl
  · intro tp now el maxR mn creds st0 hmax
    exact gemini_invoke_attempts_aux tp now el maxR mn creds st0 hmax

/-- Witness for C5 (amended): the rotator with an empty pool returns
`attempts = 0`; with one available credential and a succeeding transport
it returns `attempts ≥ 1`. -/
theorem provider_attempts_amended_witness :
    (gemini_invoke alwaysOkTransport 0 5 1 "gemini-3-pro" []
        {}).1.attempts = 0 ∧
    1 ≤ (gemini_invoke alwaysOkTransport 0 5 1 "gemini-3-pro" [credAlpha]
        {}).1.attempts :=
  ⟨(provider_attempts_amended.2.2.2.2.2.2.2.2 alwaysOkTransport 0 5 1
      "gemini-3-pro" [] {} (by decide)).1 rfl,
   (provider_attempts_amended.2.2.2.2.2.2.2.2 alwaysOkTransport 0 5 1
      "gemini-3-pro" [credAlpha] {} (by decide)).2 (by decide)⟩

/-- C2: `FallbackProvider.invoke` with caller timeout `T` invokes the
primary exactly once with timeout `min T primary_timeout`; if that result
succeeds it is returned and the fallback is never invoked; otherwise the
fallback is invoked exactly once with the full timeout `T` and its result
is returned.  `provider_name` and `model` delegate to the primary. -/
theorem fallbackProvider_invoke_spec (fp : FallbackProvider)
    (sys content : String) (T : Nat) :
    ((fp.primary.invoke sys content (min T fp.primary_timeout)).success = true →
      fp.invokeTraced sys content T =
        (fp.primary.invoke sys content (min T fp.primary_timeout),
         [ProviderCall.primaryCall (min T fp.primary_timeout)])) ∧
    ((fp.primary.invoke sys content (min T fp.primary_timeout)).success = false →
      fp.invokeTraced sys content T =
        (fp.fallback.invoke sys content T,
         [ProviderCall.primaryCall (min T fp.primary_timeout),
          ProviderCall.fallbackCall T])) ∧
    fp.provider_name = fp.primary.provider_name ∧
    fp.model = fp.primary.model := by
  refine ⟨fun h => ?_, fun h => ?_, rfl, rfl⟩ <;>
    simp [FallbackProvider.invokeTraced, h]

/-- Witness for C2: with a succeeding primary, `primary_timeout = 180` and
caller timeout 300, the trace is a single primary call at timeout 180; with
a failing primary the trace adds one fallback call at timeout 300. -/
theorem fallbackProvider_invoke_spec_witness :
    (FallbackProvider.mk alwaysOkProvider alwaysFailProvider 180).invokeTraced
        "s" "c" 300 =
      (alwaysOkProvider.invoke "s" "c" (min 300 180),
       [ProviderCall.primaryCall (min 300 180)]) ∧
    (FallbackProvider.mk alwaysFailProvider alwaysOkProvider 180).invokeTraced
        "s" "c" 300 =
      (alwaysOkProvider.invoke "s" "c" 300,
       [ProviderCall.primaryCall (min 300 180),
        ProviderCall.fallbackCall 300]) :=
  ⟨(fallbackProvider_invoke_spec
      ⟨alwaysOkProvider, alwaysFailProvider, 180⟩ "s" "c" 300).1 rfl,
   (fallbackProvider_invoke_spec
      ⟨alwaysFailProvider, alwaysOkProvider, 180⟩ "s" "c" 300).2.1 rfl⟩

end AgentOS
